import Mathlib

/-!
Formal model of the SynthSpider ingestion pipeline, shallowly embedded from
`SynthSpider.py` and `populate.py`.

Time is modelled in whole seconds as `Nat`; the wall clock only advances at
the explicit sleeps performed by the code (`time.sleep` inside
`wait_for_rate_limit_reset` and the backoff delays between retries), so every
definition threads the current time explicitly.  The external collaborators
(the HTTP client, the tokenizer, the ChromaDB collection) are represented by
behaviour parameters: a token-count function, the outcome the store gives to
each upsert attempt, and the backoff delay drawn for each retry.
-/

/-- The module-level globals `tokens_used_this_minute` and
`minute_window_start` of `SynthSpider.py`. -/
structure RateState where
  tokensUsed : Nat
  windowStart : Nat
  deriving DecidableEq, Repr

/-- `tokens_per_minute_limit = 240000` (SynthSpider.py line 189). -/
def tokens_per_minute_limit : Nat := 240000

/-- `within_rate_limit(num_tokens)` (SynthSpider.py lines 198-205): if at
least 60 seconds elapsed since `minute_window_start`, reset the counter to 0
and the window start to now; then return whether
`tokens_used_this_minute + num_tokens <= tokens_per_minute_limit`.
The function only reads and (on expiry) resets the globals; it never adds
`num_tokens` to the counter.  Returns the decision and the updated globals. -/
def within_rate_limit (numTokens now : Nat) (s : RateState) : Bool × RateState :=
  let s1 := if 60 ≤ now - s.windowStart then { tokensUsed := 0, windowStart := now } else s
  (decide (s1.tokensUsed + numTokens ≤ tokens_per_minute_limit), s1)

/-- `wait_for_rate_limit_reset()` (SynthSpider.py lines 208-216): sleep
`max(0, 100 - (now - minute_window_start))` seconds, then set
`minute_window_start` to the post-sleep time.  The source's assignment
`tokens_used_this_minute = 0` is made without a `global` declaration, so it
binds a function-local variable and the global counter is left unchanged; the
model reproduces exactly that.  Returns the post-sleep time and the updated
globals. -/
def wait_for_rate_limit_reset (now : Nat) (s : RateState) : Nat × RateState :=
  let timeToWait := 100 - (now - s.windowStart)
  (now + timeToWait, { tokensUsed := s.tokensUsed, windowStart := now + timeToWait })

/-- One persisted entry of the external collection: (id, document, metadata
url), i.e. ids=[url], documents=[html_content], metadatas=[url-record]. -/
abbrev Store := List (String × String × String)

/-- Modelled from the spec: the external ChromaDB collection's `upsert` is not
part of this repository; per the spec's interface contract a write with an
existing id replaces the prior document/metadata, otherwise a new entry is
created. -/
def upsertStore (id doc meta : String) : Store → Store
  | [] => [(id, doc, meta)]
  | e :: es => if e.1 = id then (id, doc, meta) :: es else e :: upsertStore id doc meta es

/-- Outcome the store gives to one `collection.upsert` call, as discriminated
by the exception handlers of `save_to_chromadb`. -/
inductive UpsertResult where
  | ok
  | dupKey
  | rateLimit
  | otherErr
  deriving DecidableEq, Repr

/-- Which branch of the body of `save_to_chromadb` an execution took. -/
inductive AttemptResult where
  | saved
  | duplicateSkipped
  | throttled
  | otherLogged
  deriving DecidableEq, Repr

/-- One execution of the body of `save_to_chromadb` (SynthSpider.py lines
222-247), i.e. the function that the backoff decorator wraps: compute the
token count, check `within_rate_limit`, on refusal call
`wait_for_rate_limit_reset`, then attempt the upsert.  On success the entry
is upserted and the counter is charged; a `UniqueConstraintError` is logged
and swallowed; a `RateLimitError` triggers `wait_for_rate_limit_reset` and is
re-raised (branch `throttled`); any other exception is logged and swallowed.
Returns (post time, globals, store, branch). -/
def save_attempt (numTokens : Nat) (u : UpsertResult) (url text : String)
    (now : Nat) (s : RateState) (store : Store) :
    Nat × RateState × Store × AttemptResult :=
  let p := within_rate_limit numTokens now s
  let q := if p.1 then (now, p.2) else wait_for_rate_limit_reset now p.2
  match u with
  | .ok => (q.1, { tokensUsed := q.2.tokensUsed + numTokens, windowStart := q.2.windowStart },
      upsertStore url text url store, .saved)
  | .dupKey => (q.1, q.2, store, .duplicateSkipped)
  | .rateLimit =>
      let r := wait_for_rate_limit_reset q.1 q.2
      (r.1, r.2, store, .throttled)
  | .otherErr => (q.1, q.2, store, .otherLogged)

/-- How a whole (decorated) `save_to_chromadb` call ends.  The first three
constructors are normal returns; `throttleRaised` means the backoff gave up
and the last `RateLimitError` escapes to the caller. -/
inductive SaveResult where
  | saved
  | duplicateSkipped
  | otherLogged
  | throttleRaised
  deriving DecidableEq, Repr

/-- Result of a decorated `save_to_chromadb` call: post time, globals, store,
how it ended, and how many attempts (invocations of the body) were made. -/
structure SaveOutcome where
  now : Nat
  rate : RateState
  store : Store
  result : SaveResult
  attempts : Nat
  deriving DecidableEq, Repr

/-- The retry loop of `backoff.on_exception(backoff.expo, RateLimitError,
max_tries=8, max_time=300)` (SynthSpider.py lines 219-221): run the body; on
a `RateLimitError` give up (re-raise) if the attempt count has reached
`max_tries` or the time elapsed since the first call is at least `max_time`,
otherwise sleep the next backoff delay, capped at `max_time - elapsed`, and
retry.  `fuel` is the number of attempts still allowed, `attempt` the 0-based
index of the current one, `start` the time of the first call. -/
def save_go (url text : String) (numTokens : Nat) (upserts : Nat → UpsertResult)
    (delays : Nat → Nat) (start : Nat) :
    (attempt fuel now : Nat) → RateState → Store → SaveOutcome
  | attempt, 0, now, s, store => ⟨now, s, store, .throttleRaised, attempt⟩
  | attempt, fuel + 1, now, s, store =>
    let r := save_attempt numTokens (upserts attempt) url text now s store
    match r.2.2.2 with
    | .saved => ⟨r.1, r.2.1, r.2.2.1, .saved, attempt + 1⟩
    | .duplicateSkipped => ⟨r.1, r.2.1, r.2.2.1, .duplicateSkipped, attempt + 1⟩
    | .otherLogged => ⟨r.1, r.2.1, r.2.2.1, .otherLogged, attempt + 1⟩
    | .throttled =>
      if fuel = 0 ∨ 300 ≤ r.1 - start then ⟨r.1, r.2.1, r.2.2.1, .throttleRaised, attempt + 1⟩
      else save_go url text numTokens upserts delays start (attempt + 1) fuel
        (r.1 + min (delays attempt) (300 - (r.1 - start))) r.2.1 r.2.2.1

/-- A full `save_to_chromadb(url, html_content, collection)` call as seen by
its caller: the body under the backoff decorator, at most 8 attempts within
300 seconds.  `countTokens` is the external tiktoken encoder
(`count_tokens`), `upserts` the store's response to each attempt, `delays`
the backoff delay drawn after each throttled attempt. -/
def save_to_chromadb (countTokens : String → Nat) (url text : String)
    (upserts : Nat → UpsertResult) (delays : Nat → Nat)
    (now : Nat) (s : RateState) (store : Store) : SaveOutcome :=
  save_go url text (countTokens text) upserts delays now 0 8 now s store

/-- The externally observable behaviour of one URL's pipeline inputs:
whether the page GET succeeds (false models a `requests.RequestException`,
covering transport errors and `raise_for_status` HTTP errors), the text the
BeautifulSoup extraction yields when it succeeds, the store's response to
each upsert attempt, and the backoff delays. -/
structure UrlBehavior where
  url : String
  fetchOk : Bool
  text : String
  upserts : Nat → UpsertResult
  delays : Nat → Nat

/-- How one `fetch_and_save_html` task ends: a normal return recording
whether `update_progress` was called, or an escaped `RateLimitError`. -/
inductive PipelineResult where
  | done (progressed : Bool)
  | raisedThrottle
  deriving DecidableEq, Repr

/-- `fetch_and_save_html(url, update_progress, collection)` (SynthSpider.py
lines 155-185): on a fetch failure the exception is caught
(`except requests.RequestException`), logged, and the function returns
without calling `update_progress`; otherwise it calls `save_to_chromadb` and
then `update_progress`.  Only `requests.RequestException` is caught, so a
`RateLimitError` escaping an exhausted backoff propagates to the caller and
`update_progress` is not called. -/
def fetch_and_save_html (countTokens : String → Nat) (b : UrlBehavior)
    (now : Nat) (s : RateState) (store : Store) :
    Nat × RateState × Store × PipelineResult :=
  if b.fetchOk then
    let o := save_to_chromadb countTokens b.url b.text b.upserts b.delays now s store
    match o.result with
    | .throttleRaised => (o.now, o.rate, o.store, .raisedThrottle)
    | _ => (o.now, o.rate, o.store, .done true)
  else
    (now, s, store, .done false)

/-- Aggregate outcome of one orchestrator run: final time, globals, store,
number of `update_progress` calls, number of pipelines that ran to
completion, and whether the run was aborted by an escaped exception. -/
structure RunOutcome where
  now : Nat
  rate : RateState
  store : Store
  progress : Nat
  completed : Nat
  aborted : Bool
  deriving DecidableEq, Repr

/-- The fan-out of `populate.main` (populate.py lines 84-94): one
`fetch_and_save_html` task per URL, awaited by `asyncio.gather` with the
default `return_exceptions=False`, so the first uncaught exception makes
`gather` raise, `main` propagates it past `pbar.close()`, and `asyncio.run`
cancels the pipelines that have not completed.  The shared globals and the
store are threaded through the tasks; `save_to_chromadb` contains no await
point, so each task's post-fetch part runs without interleaving. -/
def runPipelines (countTokens : String → Nat) :
    List UrlBehavior → Nat → RateState → Store → RunOutcome
  | [], now, s, store => ⟨now, s, store, 0, 0, false⟩
  | b :: bs, now, s, store =>
    let r := fetch_and_save_html countTokens b now s store
    match r.2.2.2 with
    | .raisedThrottle => ⟨r.1, r.2.1, r.2.2.1, 0, 0, true⟩
    | .done p =>
      let o := runPipelines countTokens bs r.1 r.2.1 r.2.2.1
      ⟨o.now, o.rate, o.store, (if p then 1 else 0) + o.progress, o.completed + 1, o.aborted⟩

mutual

/-- An `xml.etree.ElementTree` element: tag (in ElementTree's fully
qualified `namespace-uri + local-name` form), text, children. -/
inductive XmlElem where
  | mk : String → Option String → XmlForest → XmlElem

/-- A list of sibling elements (a separate type so that the recursion over
the tree stays structural). -/
inductive XmlForest where
  | nil : XmlForest
  | cons : XmlElem → XmlForest → XmlForest

end

/-- The tag of an element. -/
def XmlElem.tag : XmlElem → String
  | .mk t _ _ => t

/-- The text of an element (None for an element with no text node). -/
def XmlElem.text : XmlElem → Option String
  | .mk _ x _ => x

mutual

/-- All strict descendants of an element, in document order — the elements
`root.findall(".//…")` iterates over. -/
def descElem : XmlElem → List XmlElem
  | .mk _ _ f => descForest f

/-- All elements of a forest together with their strict descendants, in
document order. -/
def descForest : XmlForest → List XmlElem
  | .nil => []
  | .cons e f => e :: (descElem e ++ descForest f)

end

/-- `root.findall(".//" + path, namespaces)` for a path that is a single
namespaced tag: every descendant of `root` carrying that qualified tag, in
document order. -/
def findall (tag : String) (root : XmlElem) : List XmlElem :=
  (descElem root).filter (fun e => e.tag == tag)

/-- The qualified tag ElementTree gives a `loc` element of the `http`
sitemap namespace (SynthSpider.py line 137 together with the path
`.//http:loc`). -/
def http_loc : String := "\x7bhttp://www.sitemaps.org/schemas/sitemap/0.9\x7dloc"

/-- The qualified tag of a `loc` element of the `https` namespace variant
(SynthSpider.py line 138, path `.//https:loc`). -/
def https_loc : String := "\x7bhttps://www.sitemaps.org/schemas/sitemap/0.9\x7dloc"

/-- Qualified `url` tag of the `http` sitemap namespace. -/
def http_url_tag : String := "\x7bhttp://www.sitemaps.org/schemas/sitemap/0.9\x7durl"

/-- Qualified `urlset` tag of the `http` sitemap namespace. -/
def http_urlset_tag : String := "\x7bhttp://www.sitemaps.org/schemas/sitemap/0.9\x7durlset"

/-- Qualified `url` tag of the `https` namespace variant. -/
def https_url_tag : String := "\x7bhttps://www.sitemaps.org/schemas/sitemap/0.9\x7durl"

/-- Qualified `urlset` tag of the `https` namespace variant. -/
def https_urlset_tag : String := "\x7bhttps://www.sitemaps.org/schemas/sitemap/0.9\x7durlset"

/-- `parse_sitemap(sitemap_content, max_urls)` (SynthSpider.py lines
118-152), applied to the already-parsed element tree: collect the texts of
all `loc` descendants in the `http` sitemap namespace; if that list is
empty, fall back to the `https` namespace variant; finally truncate to the
first `max_urls` entries when a cap is given. -/
def parse_sitemap (root : XmlElem) (maxUrls : Option Nat) : List (Option String) :=
  let urls := (findall http_loc root).map XmlElem.text
  let urls1 := if urls.isEmpty then (findall https_loc root).map XmlElem.text else urls
  match maxUrls with
  | some k => urls1.take k
  | none => urls1

/-- A `loc` element holding one URL. -/
def locEntry (locTag u : String) : XmlElem := .mk locTag (some u) .nil

/-- A `url` element wrapping one `loc` element. -/
def urlEntry (urlTag locTag u : String) : XmlElem :=
  .mk urlTag none (.cons (locEntry locTag u) .nil)

/-- Convert a list of elements into a sibling forest. -/
def forestOf : List XmlElem → XmlForest
  | [] => .nil
  | e :: es => .cons e (forestOf es)

/-- A well-formed two-level sitemap document: a `urlset` root holding one
`url`/`loc` entry per URL, in list order (= document order). -/
def sitemapTree (urlsetTag urlTag locTag : String) (urls : List String) : XmlElem :=
  .mk urlsetTag none (forestOf (urls.map (urlEntry urlTag locTag)))

/-- A sitemap using the `http` sitemap namespace throughout. -/
def sitemapHttp (urls : List String) : XmlElem :=
  sitemapTree http_urlset_tag http_url_tag http_loc urls

/-- A sitemap using the `https` namespace variant throughout. -/
def sitemapHttps (urls : List String) : XmlElem :=
  sitemapTree https_urlset_tag https_url_tag https_loc urls

/-! ## Basic facts about the rate limiter -/

theorem within_rate_limit_snd (n now : Nat) (s : RateState) :
    (within_rate_limit n now s).2 =
      if 60 ≤ now - s.windowStart then { tokensUsed := 0, windowStart := now } else s := by
  simp [within_rate_limit]

theorem within_rate_limit_fst (n now : Nat) (s : RateState) :
    (within_rate_limit n now s).1 =
      decide ((within_rate_limit n now s).2.tokensUsed + n ≤ tokens_per_minute_limit) := by
  simp [within_rate_limit]

theorem wait_preserves_tokensUsed (now : Nat) (s : RateState) :
    (wait_for_rate_limit_reset now s).2.tokensUsed = s.tokensUsed := rfl

theorem save_attempt_rate (n : Nat) (u : UpsertResult) (url text : String)
    (now : Nat) (s : RateState) (store : Store) :
    (save_attempt n u url text now s store).2.1.tokensUsed =
      (if 60 ≤ now - s.windowStart then 0 else s.tokensUsed) +
        (if u = UpsertResult.ok then n else 0) := by
  cases u <;>
    simp only [save_attempt, within_rate_limit, wait_for_rate_limit_reset] <;>
    split <;> split <;> simp

theorem save_attempt_branch (n : Nat) (u : UpsertResult) (url text : String)
    (now : Nat) (s : RateState) (store : Store) :
    (save_attempt n u url text now s store).2.2.2 =
      match u with
      | .ok => .saved
      | .dupKey => .duplicateSkipped
      | .rateLimit => .throttled
      | .otherErr => .otherLogged := by
  cases u <;> rfl

theorem save_attempt_rateLimit_branch (n : Nat) (url text : String)
    (now : Nat) (s : RateState) (store : Store) :
    (save_attempt n UpsertResult.rateLimit url text now s store).2.2.2 =
      AttemptResult.throttled := rfl

/-- Behaviour of the backoff loop on an operation that throttles at every
attempt: it ends with `throttleRaised`, having made between 1 and `fuel`
further attempts, and it used all its tries unless the 300-second elapsed
bound was reached at the final attempt. -/
theorem save_go_all_throttle (url text : String) (numTokens : Nat)
    (upserts : Nat → UpsertResult) (delays : Nat → Nat) (start : Nat)
    (h : ∀ i, upserts i = UpsertResult.rateLimit) :
    ∀ fuel attempt now s store, fuel ≠ 0 →
      (save_go url text numTokens upserts delays start attempt fuel now s store).result =
        SaveResult.throttleRaised ∧
      attempt + 1 ≤
        (save_go url text numTokens upserts delays start attempt fuel now s store).attempts ∧
      (save_go url text numTokens upserts delays start attempt fuel now s store).attempts ≤
        attempt + fuel ∧
      ((save_go url text numTokens upserts delays start attempt fuel now s store).attempts =
          attempt + fuel ∨
        300 ≤ (save_go url text numTokens upserts delays start attempt fuel now s store).now -
          start) := by
  intro fuel
  induction fuel with
  | zero => intro attempt now s store h0; exact absurd rfl h0
  | succ f ih =>
    intro attempt now s store _
    simp only [save_go, h attempt, save_attempt_rateLimit_branch]
    by_cases hc : f = 0 ∨ 300 ≤
        (save_attempt numTokens UpsertResult.rateLimit url text now s store).1 - start
    · rw [if_pos hc]
      refine ⟨rfl, ?_, ?_, ?_⟩
      · show attempt + 1 ≤ attempt + 1
        omega
      · show attempt + 1 ≤ attempt + (f + 1)
        omega
      · rcases hc with hc | hc
        · refine Or.inl ?_
          subst hc
          rfl
        · exact Or.inr hc
    · rw [if_neg hc]
      have hf : f ≠ 0 := fun h0 => hc (Or.inl h0)
      obtain ⟨h1, h2, h3, h4⟩ := ih (attempt + 1)
        ((save_attempt numTokens UpsertResult.rateLimit url text now s store).1 +
          min (delays attempt)
            (300 - ((save_attempt numTokens UpsertResult.rateLimit url text now s store).1 -
              start)))
        (save_attempt numTokens UpsertResult.rateLimit url text now s store).2.1
        (save_attempt numTokens UpsertResult.rateLimit url text now s store).2.2.1 hf
      refine ⟨h1, by omega, by omega, ?_⟩
      rcases h4 with h4 | h4
      · exact Or.inl (by omega)
      · exact Or.inr h4

/-! ## Claims C1, C2, C3, C4, C9 -/

/-- C1 (counterexample): a sequence of two writes inside one rate window
drives the shared token counter past the 240000 limit.  At t=0 a 240000
token page is admitted and charged; at t=10 a 1 token page is refused, the
writer calls wait_for_rate_limit_reset (which moves the window start to
t=100 but, because of the missing global declaration, does not clear the
counter) and then charges unconditionally, leaving tokensUsed = 240001 in a
window whose age is 0 seconds. -/
theorem c1_counterexample :
    let o1 := save_to_chromadb (fun _ => 240000) "u1" "a" (fun _ => UpsertResult.ok)
      (fun _ => 0) 0 ⟨0, 0⟩ []
    let o2 := save_to_chromadb (fun _ => 1) "u2" "b" (fun _ => UpsertResult.ok)
      (fun _ => 0) 10 o1.rate o1.store
    tokens_per_minute_limit < o2.rate.tokensUsed ∧ o2.now - o2.rate.windowStart < 60 := by
  decide

/-- C1 (amended): at every successful admission decision the counter is
within the limit — `within_rate_limit` returning true means the (possibly
window-reset) counter plus the request still fits under 240000; the original
claim's further assertion that no interleaving with writes exceeds the limit
is refuted by `c1_counterexample`. -/
theorem c1_admission_bound (n now : Nat) (s : RateState)
    (h : (within_rate_limit n now s).1 = true) :
    (within_rate_limit n now s).2.tokensUsed ≤ tokens_per_minute_limit ∧
    (within_rate_limit n now s).2.tokensUsed + n ≤ tokens_per_minute_limit := by
  rw [within_rate_limit_fst] at h
  have h1 := of_decide_eq_true h
  exact ⟨by omega, h1⟩

theorem c1_admission_bound_witness :
    (within_rate_limit 5 0 ⟨0, 0⟩).2.tokensUsed ≤ tokens_per_minute_limit ∧
    (within_rate_limit 5 0 ⟨0, 0⟩).2.tokensUsed + 5 ≤ tokens_per_minute_limit :=
  c1_admission_bound 5 0 ⟨0, 0⟩ (by decide)

/-- C2 (counterexample): `within_rate_limit` admits a request but does not
reserve the requested tokens — after a successful decision the counter is
unchanged (0), not increased by the request (5). -/
theorem c2_counterexample :
    (within_rate_limit 5 0 ⟨0, 0⟩).1 = true ∧
    (within_rate_limit 5 0 ⟨0, 0⟩).2.tokensUsed = 0 ∧
    (within_rate_limit 5 0 ⟨0, 0⟩).2.tokensUsed ≠ 0 + 5 := by
  decide

/-- C2 (amended): `within_rate_limit` first resets the window when at least
60 seconds have elapsed (and leaves the state untouched otherwise), and
returns true iff the resulting counter plus the request is at most the
limit; it never mutates the counter upward — the reservation is performed
later by `save_to_chromadb` after a successful upsert. -/
theorem c2_within_rate_limit_spec (n now : Nat) (s : RateState) :
    ((within_rate_limit n now s).1 = true ↔
      (within_rate_limit n now s).2.tokensUsed + n ≤ tokens_per_minute_limit) ∧
    (within_rate_limit n now s).2.tokensUsed ≤ s.tokensUsed ∧
    (60 ≤ now - s.windowStart →
      (within_rate_limit n now s).2 = { tokensUsed := 0, windowStart := now }) ∧
    (now - s.windowStart < 60 → (within_rate_limit n now s).2 = s) := by
  refine ⟨?_, ?_, ?_, ?_⟩
  · rw [within_rate_limit_fst]; exact decide_eq_true_iff
  · rw [within_rate_limit_snd]; split <;> simp
  · intro h; rw [within_rate_limit_snd, if_pos h]
  · intro h; rw [within_rate_limit_snd, if_neg (by omega)]

theorem c2_within_rate_limit_spec_witness :
    ((within_rate_limit 7 100 ⟨50, 30⟩).1 = true ↔
      (within_rate_limit 7 100 ⟨50, 30⟩).2.tokensUsed + 7 ≤ tokens_per_minute_limit) ∧
    (within_rate_limit 7 100 ⟨50, 30⟩).2.tokensUsed ≤ (⟨50, 30⟩ : RateState).tokensUsed ∧
    (60 ≤ 100 - (⟨50, 30⟩ : RateState).windowStart →
      (within_rate_limit 7 100 ⟨50, 30⟩).2 = { tokensUsed := 0, windowStart := 100 }) ∧
    (100 - (⟨50, 30⟩ : RateState).windowStart < 60 →
      (within_rate_limit 7 100 ⟨50, 30⟩).2 = ⟨50, 30⟩) :=
  c2_within_rate_limit_spec 7 100 ⟨50, 30⟩

/-- C3 (code bug): `wait_for_rate_limit_reset`, called at t=0 with
tokens_used_this_minute = 100 and minute_window_start = 0, sleeps
100 - 0 = 100 seconds and sets the window start to the post-sleep time 100,
but leaves the global counter at 100 instead of resetting it to 0: the
assignment `tokens_used_this_minute = 0` in the source lacks a `global`
declaration and only binds a local, contradicting the function's own
comment "Reset the token count and window start time". -/
theorem c3_wait_reset_eval :
    wait_for_rate_limit_reset 0 ⟨100, 0⟩ =
      (100, { tokensUsed := 100, windowStart := 100 }) ∧
    ({ tokensUsed := 100, windowStart := 100 } : RateState).tokensUsed ≠ 0 := by
  decide

/-- C4 (counterexample): a non-throttling store error does not propagate:
the writer's `except Exception` handler logs it and `save_to_chromadb`
returns normally (outcome `otherLogged`, not a raised error), after exactly
one attempt. -/
theorem c4_counterexample :
    (save_to_chromadb (fun _ => 1) "u" "t" (fun _ => UpsertResult.otherErr) (fun _ => 0)
      0 ⟨0, 0⟩ []).result = SaveResult.otherLogged ∧
    (save_to_chromadb (fun _ => 1) "u" "t" (fun _ => UpsertResult.otherErr) (fun _ => 0)
      0 ⟨0, 0⟩ []).attempts = 1 ∧
    SaveResult.otherLogged ≠ SaveResult.throttleRaised := by
  decide

/-- C4 (amended): a perpetually throttling write is abandoned with the last
RateLimitError re-raised as a terminal failure after at most 8 attempts,
and it uses all 8 attempts unless the 300-second elapsed-time bound was
reached first; a non-throttling store error causes no retry but is caught
and logged inside the writer, which returns normally
(see `c4_counterexample`). -/
theorem c4_backoff_bound (countTokens : String → Nat) (url text : String)
    (upserts : Nat → UpsertResult) (delays : Nat → Nat)
    (now : Nat) (s : RateState) (store : Store)
    (h : ∀ i, upserts i = UpsertResult.rateLimit) :
    (save_to_chromadb countTokens url text upserts delays now s store).result =
      SaveResult.throttleRaised ∧
    1 ≤ (save_to_chromadb countTokens url text upserts delays now s store).attempts ∧
    (save_to_chromadb countTokens url text upserts delays now s store).attempts ≤ 8 ∧
    ((save_to_chromadb countTokens url text upserts delays now s store).attempts = 8 ∨
      300 ≤ (save_to_chromadb countTokens url text upserts delays now s store).now - now) := by
  have := save_go_all_throttle url text (countTokens text) upserts delays now h 8 0 now s store
    (by omega)
  unfold save_to_chromadb
  simpa using this

theorem c4_backoff_bound_witness :
    (save_to_chromadb (fun _ => 0) "u" "t" (fun _ => UpsertResult.rateLimit) (fun _ => 0)
      0 ⟨0, 0⟩ []).result = SaveResult.throttleRaised ∧
    1 ≤ (save_to_chromadb (fun _ => 0) "u" "t" (fun _ => UpsertResult.rateLimit) (fun _ => 0)
      0 ⟨0, 0⟩ []).attempts ∧
    (save_to_chromadb (fun _ => 0) "u" "t" (fun _ => UpsertResult.rateLimit) (fun _ => 0)
      0 ⟨0, 0⟩ []).attempts ≤ 8 ∧
    ((save_to_chromadb (fun _ => 0) "u" "t" (fun _ => UpsertResult.rateLimit) (fun _ => 0)
      0 ⟨0, 0⟩ []).attempts = 8 ∨
      300 ≤ (save_to_chromadb (fun _ => 0) "u" "t" (fun _ => UpsertResult.rateLimit)
        (fun _ => 0) 0 ⟨0, 0⟩ []).now - 0) :=
  c4_backoff_bound (fun _ => 0) "u" "t" (fun _ => UpsertResult.rateLimit) (fun _ => 0)
    0 ⟨0, 0⟩ [] (fun _ => rfl)

/-- C9 (counterexample): on an error branch the counter is not always left
unchanged — a duplicate-key write entered with an expired window (t=70,
window start 0) has the counter reset from 100 to 0 by the admission
check's window rollover inside the same call. -/
theorem c9_counterexample :
    (save_attempt 5 UpsertResult.dupKey "u" "t" 70 ⟨100, 0⟩ []).2.2.2 =
      AttemptResult.duplicateSkipped ∧
    (save_attempt 5 UpsertResult.dupKey "u" "t" 70 ⟨100, 0⟩ []).2.1.tokensUsed = 0 ∧
    (save_attempt 5 UpsertResult.dupKey "u" "t" 70 ⟨100, 0⟩ []).2.1.tokensUsed ≠ 100 := by
  decide

/-- C9 (amended): in one execution of the body of `save_to_chromadb` the
counter is incremented by the computed token count exactly when the upsert
succeeds; on the duplicate-key, throttling and other-error branches it is
not incremented, and it is left unchanged except for the window-expiry
reset to 0 performed by the admission check. -/
theorem c9_counter_spec (n : Nat) (u : UpsertResult) (url text : String)
    (now : Nat) (s : RateState) (store : Store) :
    (u = UpsertResult.ok →
      (save_attempt n u url text now s store).2.1.tokensUsed =
        (if 60 ≤ now - s.windowStart then 0 else s.tokensUsed) + n) ∧
    (u ≠ UpsertResult.ok →
      (save_attempt n u url text now s store).2.1.tokensUsed =
        if 60 ≤ now - s.windowStart then 0 else s.tokensUsed) := by
  constructor
  · intro hu; subst hu; rw [save_attempt_rate]; simp
  · intro hu; rw [save_attempt_rate, if_neg hu, Nat.add_zero]

theorem c9_counter_spec_witness :
    (UpsertResult.dupKey = UpsertResult.ok →
      (save_attempt 5 UpsertResult.dupKey "u" "t" 70 ⟨100, 0⟩ []).2.1.tokensUsed =
        (if 60 ≤ 70 - (⟨100, 0⟩ : RateState).windowStart then 0
          else (⟨100, 0⟩ : RateState).tokensUsed) + 5) ∧
    (UpsertResult.dupKey ≠ UpsertResult.ok →
      (save_attempt 5 UpsertResult.dupKey "u" "t" 70 ⟨100, 0⟩ []).2.1.tokensUsed =
        if 60 ≤ 70 - (⟨100, 0⟩ : RateState).windowStart then 0
          else (⟨100, 0⟩ : RateState).tokensUsed) :=
  c9_counter_spec 5 UpsertResult.dupKey "u" "t" 70 ⟨100, 0⟩ []

/-! ## Facts about the store and the writer -/

theorem upsertStore_filter (id doc meta : String) (st : Store)
    (h : (st.filter (fun e => e.1 == id)).length ≤ 1) :
    (upsertStore id doc meta st).filter (fun e => e.1 == id) = [(id, doc, meta)] := by
  induction st with
  | nil => simp [upsertStore]
  | cons e es ih =>
    by_cases he : e.1 = id
    · have hnil : es.filter (fun e => e.1 == id) = [] := by
        rw [List.filter_cons] at h
        simp only [he, beq_self_eq_true, if_true, List.length_cons] at h
        exact List.eq_nil_of_length_eq_zero (by omega)
      simp [upsertStore, he, List.filter_cons, hnil]
    · have hb : (e.1 == id) = false := beq_eq_false_iff_ne.mpr he
      have h1 : (es.filter (fun e => e.1 == id)).length ≤ 1 := by
        rw [List.filter_cons] at h
        simpa [hb] using h
      simp [upsertStore, he, List.filter_cons, hb, ih h1]

theorem upsertStore_idem (id doc meta : String) (st : Store) :
    upsertStore id doc meta (upsertStore id doc meta st) = upsertStore id doc meta st := by
  induction st with
  | nil => simp [upsertStore]
  | cons e es ih =>
    by_cases he : e.1 = id
    · simp [upsertStore, he]
    · simp [upsertStore, he, ih]

theorem save_attempt_ok_branch (n : Nat) (url text : String)
    (now : Nat) (s : RateState) (store : Store) :
    (save_attempt n UpsertResult.ok url text now s store).2.2.2 = AttemptResult.saved := rfl

theorem save_attempt_ok_store (n : Nat) (url text : String)
    (now : Nat) (s : RateState) (store : Store) :
    (save_attempt n UpsertResult.ok url text now s store).2.2.1 =
      upsertStore url text url store := rfl

/-- When the first attempt's upsert succeeds, the backoff wrapper returns
after that single attempt. -/
theorem save_go_ok (url text : String) (numTokens : Nat) (upserts : Nat → UpsertResult)
    (delays : Nat → Nat) (start attempt fuel now : Nat) (s : RateState) (store : Store)
    (hfuel : fuel ≠ 0) (h : upserts attempt = UpsertResult.ok) :
    save_go url text numTokens upserts delays start attempt fuel now s store =
      ⟨(save_attempt numTokens UpsertResult.ok url text now s store).1,
       (save_attempt numTokens UpsertResult.ok url text now s store).2.1,
       (save_attempt numTokens UpsertResult.ok url text now s store).2.2.1,
       SaveResult.saved, attempt + 1⟩ := by
  cases fuel with
  | zero => exact absurd rfl hfuel
  | succ f => simp only [save_go, h, save_attempt_ok_branch]

/-- A write whose upserts all succeed immediately leaves the store upserted
with the URL-keyed entry. -/
theorem save_ok_store (ct : String → Nat) (url text : String) (dl : Nat → Nat)
    (now : Nat) (s : RateState) (store : Store) :
    (save_to_chromadb ct url text (fun _ => UpsertResult.ok) dl now s store).store =
      upsertStore url text url store := by
  unfold save_to_chromadb
  rw [save_go_ok _ _ _ _ _ _ _ _ _ _ _ (by omega) rfl]
  rfl

/-! ## Claim C6 -/

/-- C6: writing the same URL with the same text twice (both upserts
succeeding) leaves the store of the first call unchanged, and that store
holds exactly one entry keyed by the URL, carrying the text as document and
the URL as metadata; the initial store is assumed well-formed in that it
holds at most one entry under that key (the external collection enforces
unique ids). -/
theorem c6_idempotent_write (ct : String → Nat) (url text : String) (dl1 dl2 : Nat → Nat)
    (t1 t2 : Nat) (s1 : RateState) (store : Store)
    (h : (store.filter (fun e => e.1 == url)).length ≤ 1) :
    (save_to_chromadb ct url text (fun _ => UpsertResult.ok) dl2 t2
        (save_to_chromadb ct url text (fun _ => UpsertResult.ok) dl1 t1 s1 store).rate
        (save_to_chromadb ct url text (fun _ => UpsertResult.ok) dl1 t1 s1 store).store).store =
      (save_to_chromadb ct url text (fun _ => UpsertResult.ok) dl1 t1 s1 store).store ∧
    (save_to_chromadb ct url text (fun _ => UpsertResult.ok) dl1 t1 s1 store).store.filter
        (fun e => e.1 == url) = [(url, text, url)] := by
  rw [save_ok_store, save_ok_store]
  exact ⟨upsertStore_idem url text url store, upsertStore_filter url text url store h⟩

theorem c6_idempotent_write_witness :
    (save_to_chromadb String.length "u" "t" (fun _ => UpsertResult.ok) (fun _ => 0) 5
        (save_to_chromadb String.length "u" "t" (fun _ => UpsertResult.ok) (fun _ => 0) 0
          ⟨0, 0⟩ []).rate
        (save_to_chromadb String.length "u" "t" (fun _ => UpsertResult.ok) (fun _ => 0) 0
          ⟨0, 0⟩ []).store).store =
      (save_to_chromadb String.length "u" "t" (fun _ => UpsertResult.ok) (fun _ => 0) 0
        ⟨0, 0⟩ []).store ∧
    (save_to_chromadb String.length "u" "t" (fun _ => UpsertResult.ok) (fun _ => 0) 0
      ⟨0, 0⟩ []).store.filter (fun e => e.1 == "u") = [("u", "t", "u")] :=
  c6_idempotent_write String.length "u" "t" (fun _ => 0) (fun _ => 0) 0 5 ⟨0, 0⟩ []
    (by decide)

/-! ## Facts about the pipelines -/

/-- If an attempt's upsert outcome is not a RateLimitError, the backoff
wrapper returns normally at that attempt, so a write whose first upsert is
not throttled never ends in `throttleRaised`. -/
theorem save_go_first_not_throttle (url text : String) (numTokens : Nat)
    (upserts : Nat → UpsertResult) (delays : Nat → Nat)
    (start attempt fuel now : Nat) (s : RateState) (store : Store)
    (hfuel : fuel ≠ 0) (h : upserts attempt ≠ UpsertResult.rateLimit) :
    (save_go url text numTokens upserts delays start attempt fuel now s store).result ≠
      SaveResult.throttleRaised := by
  cases fuel with
  | zero => exact absurd rfl hfuel
  | succ f =>
    cases hu : upserts attempt with
    | ok => simp [save_go, hu, save_attempt_branch]
    | dupKey => simp [save_go, hu, save_attempt_branch]
    | rateLimit => exact absurd hu h
    | otherErr => simp [save_go, hu, save_attempt_branch]

/-- A pipeline whose upserts are never throttled completes normally, calling
`update_progress` exactly when the fetch succeeded. -/
theorem pipeline_done (ct : String → Nat) (b : UrlBehavior) (now : Nat)
    (s : RateState) (store : Store) (h : ∀ i, b.upserts i ≠ UpsertResult.rateLimit) :
    (fetch_and_save_html ct b now s store).2.2.2 = PipelineResult.done b.fetchOk := by
  cases hf : b.fetchOk with
  | false => simp [fetch_and_save_html, hf]
  | true =>
    have hnt := save_go_first_not_throttle b.url b.text (ct b.text) b.upserts b.delays
      now 0 8 now s store (by omega) (h 0)
    simp only [fetch_and_save_html, hf, if_true]
    unfold save_to_chromadb at hnt
    cases hr : (save_go b.url b.text (ct b.text) b.upserts b.delays now 0 8 now s store).result
      with
    | saved => simp [save_to_chromadb, hr]
    | duplicateSkipped => simp [save_to_chromadb, hr]
    | otherLogged => simp [save_to_chromadb, hr]
    | throttleRaised => exact absurd hr hnt

/-- A pipeline whose save call returns without raising (its backoff was not
exhausted, even if some attempts were throttled) completes normally, calling
`update_progress` exactly when the fetch succeeded. -/
theorem pipeline_done_of_no_raise (ct : String → Nat) (b : UrlBehavior) (now : Nat)
    (s : RateState) (store : Store)
    (h : (save_to_chromadb ct b.url b.text b.upserts b.delays now s store).result ≠
      SaveResult.throttleRaised) :
    (fetch_and_save_html ct b now s store).2.2.2 = PipelineResult.done b.fetchOk := by
  cases hf : b.fetchOk with
  | false => simp [fetch_and_save_html, hf]
  | true => simp only [fetch_and_save_html, hf, if_true]

/-- A write whose first upsert attempt is not throttled can never end
exhausted, from any state. -/
theorem save_no_throttle_of_first (ct : String → Nat) (url text : String)
    (ups : Nat → UpsertResult) (dl : Nat → Nat) (now : Nat) (s : RateState) (store : Store)
    (h : ups 0 ≠ UpsertResult.rateLimit) :
    (save_to_chromadb ct url text ups dl now s store).result ≠ SaveResult.throttleRaised := by
  unfold save_to_chromadb
  exact save_go_first_not_throttle _ _ _ _ _ _ _ _ _ _ _ (by omega) h

/-- A pipeline that ends with a normal return reports progress exactly for a
successful fetch: the `done` flag always equals `fetchOk`. -/
theorem fetch_done_fetchOk (ct : String → Nat) (b : UrlBehavior) (now : Nat)
    (s : RateState) (store : Store) (p : Bool)
    (h : (fetch_and_save_html ct b now s store).2.2.2 = PipelineResult.done p) :
    p = b.fetchOk := by
  cases hf : b.fetchOk with
  | false =>
    simp only [fetch_and_save_html, hf] at h
    simp at h
    simp [h]
  | true =>
    simp only [fetch_and_save_html, hf, if_true] at h
    cases hr : (save_to_chromadb ct b.url b.text b.upserts b.delays now s store).result <;>
      rw [hr] at h <;> simp_all

/-- A run that was not aborted by an escaped exception (no write exhausted
its throttling retries during it) has completed every launched pipeline,
and its progress count is the number of successful fetches. -/
theorem runPipelines_not_aborted (ct : String → Nat) (bs : List UrlBehavior) :
    ∀ (now : Nat) (s : RateState) (store : Store),
    (runPipelines ct bs now s store).aborted = false →
    (runPipelines ct bs now s store).completed = bs.length ∧
    (runPipelines ct bs now s store).progress = (bs.filter (fun b => b.fetchOk)).length := by
  induction bs with
  | nil => intro now s store _; exact ⟨rfl, rfl⟩
  | cons b bs ih =>
    intro now s store hab
    cases hr : (fetch_and_save_html ct b now s store).2.2.2 with
    | raisedThrottle =>
      rw [show (runPipelines ct (b :: bs) now s store).aborted = true by
        simp [runPipelines, hr]] at hab
      exact absurd hab (by simp)
    | done p =>
      have hp := fetch_done_fetchOk ct b now s store p hr
      simp only [runPipelines, hr] at hab ⊢
      obtain ⟨h2, h3⟩ := ih (fetch_and_save_html ct b now s store).1
        (fetch_and_save_html ct b now s store).2.1
        (fetch_and_save_html ct b now s store).2.2.1 hab
      refine ⟨by simp [h2], ?_⟩
      subst hp
      cases hf : b.fetchOk <;> simp [hf, h3, List.filter_cons]
      omega

/-- If none of the launched writes can end with its throttling retries
exhausted, the run is never aborted. -/
theorem runPipelines_no_exhaust (ct : String → Nat) (bs : List UrlBehavior) :
    ∀ (now : Nat) (s : RateState) (store : Store),
    (∀ b ∈ bs, ∀ (t : Nat) (r : RateState) (st : Store),
        (save_to_chromadb ct b.url b.text b.upserts b.delays t r st).result ≠
          SaveResult.throttleRaised) →
    (runPipelines ct bs now s store).aborted = false := by
  induction bs with
  | nil => intro now s store _; rfl
  | cons b bs ih =>
    intro now s store h
    have hb := pipeline_done_of_no_raise ct b now s store
      (h b (List.mem_cons_self b bs) now s store)
    simp only [runPipelines, hb]
    exact ih _ _ _ (fun b' hb' t r st => h b' (List.mem_cons_of_mem b hb') t r st)

/-! ## Claim C5 -/

/-- C5 (counterexample): a single URL whose write exhausts its throttling
retries makes the RateLimitError escape `fetch_and_save_html` (which catches
only requests.RequestException), so the gather aborts: with two launched
URLs the run ends aborted with zero pipelines completed — the sibling
pipeline is not allowed to finish and the run exits early. -/
theorem c5_counterexample :
    (runPipelines (fun _ => 0)
      [⟨"u1", true, "a", fun _ => UpsertResult.rateLimit, fun _ => 0⟩,
       ⟨"u2", true, "b", fun _ => UpsertResult.ok, fun _ => 0⟩] 0 ⟨0, 0⟩ []).aborted = true ∧
    (runPipelines (fun _ => 0)
      [⟨"u1", true, "a", fun _ => UpsertResult.rateLimit, fun _ => 0⟩,
       ⟨"u2", true, "b", fun _ => UpsertResult.ok, fun _ => 0⟩] 0 ⟨0, 0⟩ []).completed = 0 ∧
    (0 : Nat) < 2 := by
  decide

/-- C5 (amended): per-URL fetch failures, duplicate-key errors and other
store errors are confined to their pipeline.  Whenever no write exhausts its
throttling retries during the run — i.e. the run is not aborted by an
escaped RateLimitError — every launched pipeline completes and progress
counts exactly the URLs whose fetch succeeded; a write whose first attempt
is not throttled can never cause an abort, from any state; and a run whose
single write is throttled on the first attempt but succeeds on the second
(so it does not exhaust its retries) completes un-aborted.  Throttling
exhaustion, by contrast, escapes the pipeline and aborts the run
(`c5_counterexample`). -/
theorem c5_isolation (ct : String → Nat) (bs : List UrlBehavior) :
    ∀ (now : Nat) (s : RateState) (store : Store),
    ((runPipelines ct bs now s store).aborted = false →
      (runPipelines ct bs now s store).completed = bs.length ∧
      (runPipelines ct bs now s store).progress =
        (bs.filter (fun b => b.fetchOk)).length) ∧
    ((∀ b ∈ bs, ∀ (t : Nat) (r : RateState) (st : Store),
        (save_to_chromadb ct b.url b.text b.upserts b.delays t r st).result ≠
          SaveResult.throttleRaised) →
      (runPipelines ct bs now s store).aborted = false) ∧
    ((runPipelines (fun _ => 0)
        [⟨"u", true, "x", fun i => if i = 0 then UpsertResult.rateLimit else UpsertResult.ok,
          fun _ => 0⟩] 0 ⟨0, 0⟩ []).aborted = false ∧
      (runPipelines (fun _ => 0)
        [⟨"u", true, "x", fun i => if i = 0 then UpsertResult.rateLimit else UpsertResult.ok,
          fun _ => 0⟩] 0 ⟨0, 0⟩ []).completed = 1 ∧
      (runPipelines (fun _ => 0)
        [⟨"u", true, "x", fun i => if i = 0 then UpsertResult.rateLimit else UpsertResult.ok,
          fun _ => 0⟩] 0 ⟨0, 0⟩ []).progress = 1) := by
  intro now s store
  exact ⟨runPipelines_not_aborted ct bs now s store,
    runPipelines_no_exhaust ct bs now s store, by decide⟩

theorem c5_isolation_witness :
    (runPipelines (fun _ => 0)
      [⟨"u1", false, "a", fun _ => UpsertResult.ok, fun _ => 0⟩,
       ⟨"u2", true, "b", fun _ => UpsertResult.ok, fun _ => 0⟩,
       ⟨"u3", true, "c", fun _ => UpsertResult.otherErr, fun _ => 0⟩] 0 ⟨0, 0⟩ []).aborted =
        false ∧
    (runPipelines (fun _ => 0)
      [⟨"u1", false, "a", fun _ => UpsertResult.ok, fun _ => 0⟩,
       ⟨"u2", true, "b", fun _ => UpsertResult.ok, fun _ => 0⟩,
       ⟨"u3", true, "c", fun _ => UpsertResult.otherErr, fun _ => 0⟩] 0 ⟨0, 0⟩ []).completed =
        3 ∧
    (runPipelines (fun _ => 0)
      [⟨"u1", false, "a", fun _ => UpsertResult.ok, fun _ => 0⟩,
       ⟨"u2", true, "b", fun _ => UpsertResult.ok, fun _ => 0⟩,
       ⟨"u3", true, "c", fun _ => UpsertResult.otherErr, fun _ => 0⟩] 0 ⟨0, 0⟩ []).progress =
        2 := by
  have h := c5_isolation (fun _ => 0)
    [⟨"u1", false, "a", fun _ => UpsertResult.ok, fun _ => 0⟩,
     ⟨"u2", true, "b", fun _ => UpsertResult.ok, fun _ => 0⟩,
     ⟨"u3", true, "c", fun _ => UpsertResult.otherErr, fun _ => 0⟩] 0 ⟨0, 0⟩ []
  have hab := h.2.1 (by
    intro b hb t r st
    simp only [List.mem_cons, List.not_mem_nil, or_false] at hb
    rcases hb with rfl | rfl | rfl <;>
      exact save_no_throttle_of_first _ _ _ _ _ _ _ _ (by simp))
  exact ⟨hab, (h.1 hab).1, (h.1 hab).2⟩

/-! ## Claim C10 -/

/-- C10: `update_progress` runs exactly once in a pipeline iff the fetch
succeeded and the save call returned without raising (its backoff was not
exhausted); a URL whose fetch fails never increments the progress count, and
a concrete two-URL run with one failing fetch ends with progress 1 of 2
launched pipelines. -/
theorem c10_progress_iff (ct : String → Nat) (b : UrlBehavior) (now : Nat)
    (s : RateState) (store : Store) :
    (b.fetchOk = false →
      (fetch_and_save_html ct b now s store).2.2.2 = PipelineResult.done false) ∧
    ((fetch_and_save_html ct b now s store).2.2.2 = PipelineResult.done true ↔
      b.fetchOk = true ∧
        (save_to_chromadb ct b.url b.text b.upserts b.delays now s store).result ≠
          SaveResult.throttleRaised) ∧
    ((runPipelines (fun _ => 0)
        [⟨"u1", false, "a", fun _ => UpsertResult.ok, fun _ => 0⟩,
         ⟨"u2", true, "b", fun _ => UpsertResult.ok, fun _ => 0⟩] 0 ⟨0, 0⟩ []).progress = 1 ∧
      (runPipelines (fun _ => 0)
        [⟨"u1", false, "a", fun _ => UpsertResult.ok, fun _ => 0⟩,
         ⟨"u2", true, "b", fun _ => UpsertResult.ok, fun _ => 0⟩] 0 ⟨0, 0⟩ []).completed = 2) := by
  refine ⟨?_, ?_, by decide⟩
  · intro hf; simp [fetch_and_save_html, hf]
  · cases hf : b.fetchOk with
    | false => simp [fetch_and_save_html, hf]
    | true =>
      simp only [fetch_and_save_html, hf, if_true, true_and]
      cases hr : (save_to_chromadb ct b.url b.text b.upserts b.delays now s store).result <;>
        simp [hr]

theorem c10_progress_iff_witness :
    ((⟨"w", true, "x", fun _ => UpsertResult.ok, fun _ => 0⟩ : UrlBehavior).fetchOk = false →
      (fetch_and_save_html (fun _ => 0)
        ⟨"w", true, "x", fun _ => UpsertResult.ok, fun _ => 0⟩ 0 ⟨0, 0⟩ []).2.2.2 =
          PipelineResult.done false) ∧
    ((fetch_and_save_html (fun _ => 0)
        ⟨"w", true, "x", fun _ => UpsertResult.ok, fun _ => 0⟩ 0 ⟨0, 0⟩ []).2.2.2 =
          PipelineResult.done true ↔
      (⟨"w", true, "x", fun _ => UpsertResult.ok, fun _ => 0⟩ : UrlBehavior).fetchOk = true ∧
        (save_to_chromadb (fun _ => 0) "w" "x" (fun _ => UpsertResult.ok)
          (fun _ => 0) 0 ⟨0, 0⟩ []).result ≠ SaveResult.throttleRaised) ∧
    ((runPipelines (fun _ => 0)
        [⟨"u1", false, "a", fun _ => UpsertResult.ok, fun _ => 0⟩,
         ⟨"u2", true, "b", fun _ => UpsertResult.ok, fun _ => 0⟩] 0 ⟨0, 0⟩ []).progress = 1 ∧
      (runPipelines (fun _ => 0)
        [⟨"u1", false, "a", fun _ => UpsertResult.ok, fun _ => 0⟩,
         ⟨"u2", true, "b", fun _ => UpsertResult.ok, fun _ => 0⟩] 0 ⟨0, 0⟩ []).completed = 2) :=
  c10_progress_iff (fun _ => 0) ⟨"w", true, "x", fun _ => UpsertResult.ok, fun _ => 0⟩
    0 ⟨0, 0⟩ []

/-! ## Facts about the sitemap parser -/

theorem tag_mk (t : String) (x : Option String) (f : XmlForest) :
    (XmlElem.mk t x f).tag = t := rfl

theorem text_mk (t : String) (x : Option String) (f : XmlForest) :
    (XmlElem.mk t x f).text = x := rfl

/-- Filtering the descendants of a generated two-level sitemap forest for the
loc tag yields exactly the loc entries, in document order, provided the url
tag differs from the loc tag. -/
theorem filter_desc_urlEntries (ut lt : String) (hu : (ut == lt) = false)
    (urls : List String) :
    (descForest (forestOf (urls.map (urlEntry ut lt)))).filter (fun e => e.tag == lt) =
      urls.map (locEntry lt) := by
  induction urls with
  | nil => rfl
  | cons u us ih =>
    simp only [List.map_cons, forestOf, descForest, descElem, urlEntry, locEntry]
    simp [List.filter_cons, tag_mk, hu, descForest, ih]

/-- The same descendants hold no element of a foreign tag that is neither the
url tag nor the loc tag. -/
theorem filter_desc_urlEntries_other (ut lt t : String) (h1 : (ut == t) = false)
    (h2 : (lt == t) = false) (urls : List String) :
    (descForest (forestOf (urls.map (urlEntry ut lt)))).filter (fun e => e.tag == t) = [] := by
  induction urls with
  | nil => rfl
  | cons u us ih =>
    simp only [List.map_cons, forestOf, descForest, descElem, urlEntry, locEntry]
    simp [List.filter_cons, tag_mk, h1, h2, descForest, ih]

theorem findall_sitemapHttp (urls : List String) :
    findall http_loc (sitemapHttp urls) = urls.map (locEntry http_loc) := by
  simp only [findall, sitemapHttp, sitemapTree, descElem]
  exact filter_desc_urlEntries http_url_tag http_loc (by decide) urls

theorem findall_sitemapHttps (urls : List String) :
    findall https_loc (sitemapHttps urls) = urls.map (locEntry https_loc) := by
  simp only [findall, sitemapHttps, sitemapTree, descElem]
  exact filter_desc_urlEntries https_url_tag https_loc (by decide) urls

theorem findall_http_in_sitemapHttps (urls : List String) :
    findall http_loc (sitemapHttps urls) = [] := by
  simp only [findall, sitemapHttps, sitemapTree, descElem]
  exact filter_desc_urlEntries_other https_url_tag https_loc http_loc
    (by decide) (by decide) urls

theorem findall_https_in_sitemapHttp (urls : List String) :
    findall https_loc (sitemapHttp urls) = [] := by
  simp only [findall, sitemapHttp, sitemapTree, descElem]
  exact filter_desc_urlEntries_other http_url_tag http_loc https_loc
    (by decide) (by decide) urls

theorem map_text_locEntries (lt : String) (urls : List String) :
    (urls.map (locEntry lt)).map XmlElem.text = urls.map some := by
  induction urls with
  | nil => rfl
  | cons u us ih => simp only [List.map_cons, locEntry, text_mk, ih]

/-- With a cap, the parser returns the prefix of what it returns uncapped. -/
theorem parse_sitemap_some (root : XmlElem) (k : Nat) :
    parse_sitemap root (some k) = (parse_sitemap root none).take k := rfl

theorem parse_sitemapHttp_none (urls : List String) :
    parse_sitemap (sitemapHttp urls) none = urls.map some := by
  cases urls with
  | nil => rfl
  | cons u us =>
    simp only [parse_sitemap, findall_sitemapHttp, map_text_locEntries]
    simp

/-! ## Claim C7 -/

/-- C7: on a well-formed two-level sitemap with N loc entries (modelled by
the generator `sitemapHttp`), a cap of k ≤ N returns exactly the first k
URLs in document order (k entries), and no cap returns all N URLs in
document order. -/
theorem c7_parse_take (urls : List String) (k : Nat) (h : k ≤ urls.length) :
    parse_sitemap (sitemapHttp urls) (some k) = (urls.take k).map some ∧
    (parse_sitemap (sitemapHttp urls) (some k)).length = k ∧
    parse_sitemap (sitemapHttp urls) none = urls.map some := by
  refine ⟨?_, ?_, parse_sitemapHttp_none urls⟩
  · rw [parse_sitemap_some, parse_sitemapHttp_none, List.map_take]
  · rw [parse_sitemap_some, parse_sitemapHttp_none, List.length_take, List.length_map]
    omega

theorem c7_parse_take_witness :
    parse_sitemap (sitemapHttp ["a", "b", "c"]) (some 2) = [some "a", some "b"] ∧
    (parse_sitemap (sitemapHttp ["a", "b", "c"]) (some 2)).length = 2 ∧
    parse_sitemap (sitemapHttp ["a", "b", "c"]) none = [some "a", some "b", some "c"] :=
  c7_parse_take ["a", "b", "c"] 2 (by decide)

/-! ## Claim C8 -/

/-- C8: the parser tries the http sitemap namespace first and falls back to
the https variant exactly when the http search has zero matches; in
particular a sitemap using the https namespace exclusively yields every loc
entry in document order. -/
theorem c8_https_fallback (urls : List String) :
    parse_sitemap (sitemapHttps urls) none = urls.map some ∧
    (∀ root : XmlElem, findall http_loc root ≠ [] →
      parse_sitemap root none = (findall http_loc root).map XmlElem.text) ∧
    (∀ root : XmlElem, findall http_loc root = [] →
      parse_sitemap root none = (findall https_loc root).map XmlElem.text) := by
  refine ⟨?_, ?_, ?_⟩
  · simp only [parse_sitemap, findall_http_in_sitemapHttps, findall_sitemapHttps,
      map_text_locEntries]
    simp
  · intro root hne
    simp [parse_sitemap, List.isEmpty_iff, hne]
  · intro root hnil
    simp [parse_sitemap, hnil]

theorem c8_https_fallback_witness :
    parse_sitemap (sitemapHttps ["a", "b"]) none = [some "a", some "b"] ∧
    parse_sitemap (sitemapHttp ["c"]) none =
      (findall http_loc (sitemapHttp ["c"])).map XmlElem.text :=
  ⟨(c8_https_fallback ["a", "b"]).1,
   (c8_https_fallback ["a", "b"]).2.1 (sitemapHttp ["c"])
     (by rw [findall_sitemapHttp]; simp)⟩
